import Mathlib

/-!
Verification of the GenAI repository: the smart-chatbot service
(app/services/chat_service.py, app/core/openai_client.py, app/api/chat.py,
app/models/schemas.py, app/core/config.py) and the Deep_Research planner
(deep_research/planner_agent.py, deep_research/agents.py).

The Python code is embedded shallowly: the MongoDB collection of chat logs
becomes an association list keyed by session id, `datetime` instants become
`Nat`, floats (only stored and compared for truthiness, never computed with)
become `Rat`, and the outbound OpenAI network call becomes an explicit oracle
function passed in as a parameter.
-/

namespace GenAI

/-! ## Data model (app/models/schemas.py) -/

/-- `Role` enum: user / assistant / system. -/
inductive Role where
  | user
  | assistant
  | system
deriving DecidableEq, Repr

/-- The string value backing each `Role` enum member. -/
def Role.toString : Role → String
  | .user => "user"
  | .assistant => "assistant"
  | .system => "system"

/-- `Message`: role, content, timestamp (an instant, embedded as `Nat`). -/
structure Message where
  role : Role
  content : String
  timestamp : Nat
deriving DecidableEq, Repr

/-- `ChatLog`: one stored conversation document.  The unused optional
`metadata` field (`Optional[Dict[str, Any]]`, touched by no code path) is
omitted from the embedding. -/
structure ChatLog where
  session_id : String
  messages : List Message
  created_at : Nat
  updated_at : Nat
deriving DecidableEq, Repr

/-- A `{"role": ..., "content": ...}` dict as sent to the OpenAI API. -/
structure OAIMessage where
  role : String
  content : String
deriving DecidableEq, Repr

/-- Token usage counters returned by the inference call. -/
structure Usage where
  prompt_tokens : Nat
  completion_tokens : Nat
  total_tokens : Nat
deriving DecidableEq, Repr

/-- `ChatResponse` as built by `ChatService.process_chat`. -/
structure ChatResponse where
  response : String
  session_id : String
  timestamp : Nat
  usage : Usage
deriving DecidableEq, Repr

/-- `ChatRequest` (app/models/schemas.py).  The pydantic range constraints on
`temperature` and `max_tokens` are stated separately as `ChatRequest.valid`. -/
structure ChatRequest where
  message : String
  session_id : Option String := none
  context : Option (List OAIMessage) := none
  system_prompt : Option String := none
  temperature : Option Rat := none
  max_tokens : Option Nat := none
deriving DecidableEq, Repr

/-- The pydantic field validators: `temperature` in [0, 2], `max_tokens`
in [1, 4000]. -/
def ChatRequest.valid (r : ChatRequest) : Prop :=
  (∀ t, r.temperature = some t → 0 ≤ t ∧ t ≤ 2) ∧
  (∀ k, r.max_tokens = some k → 1 ≤ k ∧ k ≤ 4000)

/-! ## Settings (app/core/config.py)

Only the fields the modeled code reads.  The values are the in-code defaults
of the `Settings` class. -/

structure Settings where
  openai_model : String := "gpt-3.5-turbo"
  max_tokens : Nat := 1000
  temperature : Rat := 7/10
deriving DecidableEq, Repr

/-! ## Conversation store (MongoDB collection "chat_logs")

The collection is embedded as an association list of documents keyed by
session id (each `session_id` occurs at most once, which the service's
upsert maintains).  `findOne` is `find_one({"session_id": sid})`;
`updateOnePush` is the `update_one(..., upsert=True)` issued by
`_save_chat_log`: `$push/$each` the new messages, `$set updated_at`,
`$setOnInsert created_at/session_id`. -/

abbrev Store := List (String × ChatLog)

def Store.findOne : Store → String → Option ChatLog
  | [], _ => none
  | (k, log) :: rest, sid => if k = sid then some log else Store.findOne rest sid

def Store.updateOnePush : Store → String → List Message → Nat → Store
  | [], sid, msgs, now =>
      [(sid, { session_id := sid, messages := msgs, created_at := now, updated_at := now })]
  | (k, log) :: rest, sid, msgs, now =>
      if k = sid then
        (k, { log with messages := log.messages ++ msgs, updated_at := now }) :: rest
      else
        (k, log) :: Store.updateOnePush rest sid msgs now

/-! ## Inference client (app/core/openai_client.py) -/

/-- The request record handed to `client.chat.completions.create`. -/
structure APIRequest where
  model : String
  messages : List OAIMessage
  temperature : Rat
  max_tokens : Nat
  presence_penalty : Rat
  frequency_penalty : Rat
deriving DecidableEq, Repr

/-- What `generate_response` extracts from a successful completion:
`content` of the first choice plus the usage counters. -/
structure APIResponse where
  content : String
  usage : Usage
deriving DecidableEq, Repr

/-- The fixed default system message inserted by `_enhance_prompts`. -/
def defaultSystemMessage : OAIMessage :=
  { role := "system"
    content := "You are a helpful, intelligent assistant. Follow these guidelines:\n1. Provide clear, concise, and accurate responses\n2. Ask for clarification when the query is ambiguous\n3. Use structured formatting when appropriate\n4. Be friendly and professional\n5. Admit when you don\x27t know something\n6. Provide sources or references when making factual claims" }

/-- `OpenAIClient._enhance_prompts`: if the list is empty or its first entry
does not have role "system", insert the default system message at index 0. -/
def OpenAIClient.enhancePrompts (messages : List OAIMessage) : List OAIMessage :=
  match messages with
  | [] => [defaultSystemMessage]
  | m :: rest =>
      if m.role ≠ "system" then defaultSystemMessage :: m :: rest
      else m :: rest

/-- The request `generate_response` builds: enhanced messages, and each of
`model`, `temperature`, `max_tokens` taken from the caller argument when that
argument is truthy in Python (`x or default`), else from the settings
defaults.  Truthiness: `none` and the zero / empty value are falsy. -/
def OpenAIClient.buildRequest (settings : Settings) (messages : List OAIMessage)
    (temperature : Option Rat) (max_tokens : Option Nat) (model : Option String) :
    APIRequest :=
  { model := match model with
      | some m => if m = "" then settings.openai_model else m
      | none => settings.openai_model
    messages := OpenAIClient.enhancePrompts messages
    temperature := match temperature with
      | some t => if t = 0 then settings.temperature else t
      | none => settings.temperature
    max_tokens := match max_tokens with
      | some k => if k = 0 then settings.max_tokens else k
      | none => settings.max_tokens
    presence_penalty := 3/5
    frequency_penalty := 3/10 }

/-- `OpenAIClient.generate_response`: enhance the prompts, send the request,
and repackage content and usage.  The network call is the oracle `api`;
a raised exception is the `Except.error` case and propagates. -/
def OpenAIClient.generateResponse (api : APIRequest → Except String APIResponse)
    (settings : Settings) (messages : List OAIMessage)
    (temperature : Option Rat) (max_tokens : Option Nat) (model : Option String) :
    Except String APIResponse :=
  api (OpenAIClient.buildRequest settings messages temperature max_tokens model)

/-! ## Chat service (app/services/chat_service.py) -/

/-- `ChatService._prepare_messages`: optional non-empty system prompt first
(`if system_prompt:` — Python truthiness, so an empty string is skipped),
then the last 10 stored messages of the session (`[-10:]`), then the
caller context (`if context:` extends by the context list — extending by an
empty list is a no-op, so the plain `getD [] ` append is equivalent), then
the new user message. -/
def ChatService.prepareMessages (db : Store) (message sessionId : String)
    (context : Option (List OAIMessage)) (systemPrompt : Option String) :
    List OAIMessage :=
  let m1 : List OAIMessage := match systemPrompt with
    | some sp => if sp = "" then [] else [{ role := "system", content := sp }]
    | none => []
  let m2 : List OAIMessage := match Store.findOne db sessionId with
    | some log =>
        (log.messages.drop (log.messages.length - 10)).map
          (fun m => { role := m.role.toString, content := m.content })
    | none => []
  let m3 : List OAIMessage := (context.getD [])
  m1 ++ m2 ++ m3 ++ [{ role := "user", content := message }]

/-- `ChatService._save_chat_log`: upsert-append the user message and the
assistant reply (both timestamped at append time) to the session's log.
The `full_context` argument of the Python function is ignored by its body
and therefore not a parameter here. -/
def ChatService.saveChatLog (db : Store) (sessionId userMessage assistantResponse : String)
    (now : Nat) : Store :=
  Store.updateOnePush db sessionId
    [ { role := .user, content := userMessage, timestamp := now },
      { role := .assistant, content := assistantResponse, timestamp := now } ]
    now

/-- `ChatService.process_chat`: resolve the session id (`if not session_id:`
— `none` or the empty string is replaced by a fresh UUID, modeled by the
`freshId` parameter), prepare the messages, call the inference client, save
the exchange, and build the response.  An inference failure propagates and
nothing is saved. -/
def ChatService.processChat (api : APIRequest → Except String APIResponse)
    (settings : Settings) (db : Store) (message : String)
    (sessionId : Option String) (context : Option (List OAIMessage))
    (systemPrompt : Option String) (temperature : Option Rat)
    (maxTokens : Option Nat) (freshId : String) (now : Nat) :
    Except String (ChatResponse × Store) :=
  let sid : String := match sessionId with
    | some s => if s = "" then freshId else s
    | none => freshId
  let messages := ChatService.prepareMessages db message sid context systemPrompt
  match OpenAIClient.generateResponse api settings messages temperature maxTokens none with
  | .error e => .error e
  | .ok rd =>
      let db2 := ChatService.saveChatLog db sid message rd.content now
      .ok ({ response := rd.content, session_id := sid, timestamp := now,
             usage := rd.usage }, db2)

/-- `ChatService.get_chat_history`: `find_one` on the session id, returning
the document (as a `ChatLog`) or nothing. -/
def ChatService.getChatHistory (db : Store) (sessionId : String) : Option ChatLog :=
  Store.findOne db sessionId

/-! ## HTTP layer (app/api/chat.py) -/

/-- An HTTP outcome: a 200 body, or an `HTTPException` with status and
detail. -/
inductive HTTPReply (α : Type) where
  | ok (body : α)
  | httpError (status : Nat) (detail : String)
deriving DecidableEq, Repr

/-- `POST /chat`: run `process_chat`; any raised exception is converted to
HTTP 500 with detail `"Error processing chat: ..."`.  The store is returned
alongside the reply to expose the persisted state. -/
def chatEndpoint (api : APIRequest → Except String APIResponse)
    (settings : Settings) (db : Store) (req : ChatRequest)
    (freshId : String) (now : Nat) : HTTPReply ChatResponse × Store :=
  match ChatService.processChat api settings db req.message req.session_id
      req.context req.system_prompt req.temperature req.max_tokens freshId now with
  | .ok (res, db2) => (.ok res, db2)
  | .error e => (.httpError 500 ("Error processing chat: " ++ e), db)

/-- `GET /chat/history/{session_id}`: 404 when no log exists. -/
def getHistoryEndpoint (db : Store) (sessionId : String) : HTTPReply ChatLog :=
  match ChatService.getChatHistory db sessionId with
  | some log => .ok log
  | none => .httpError 404 "Chat history not found"

/-! ## Helpers for stating the theorems -/

/-- An always-succeeding inference oracle (models a run in which every
inference call succeeds). -/
def okApi (api : APIRequest → APIResponse) : APIRequest → Except String APIResponse :=
  fun r => .ok (api r)

/-- The messages a caller reads back for a session (empty when the history
endpoint reports not-found). -/
def historyMessages (db : Store) (sessionId : String) : List Message :=
  match ChatService.getChatHistory db sessionId with
  | some log => log.messages
  | none => []

/-! ## Research planner (deep_research/planner_agent.py, deep_research/agents.py)

The planner's structured output is validated by pydantic v2 models
`WebSearchItem` / `WebSearchPlan`.  JSON values are embedded as an inductive
type; an object is the assoc list of a parsed Python dict, so its keys are
distinct and first-match lookup is exact. -/

inductive JsonValue where
  | null
  | bool (b : Bool)
  | num (n : Int)
  | str (s : String)
  | arr (elems : List JsonValue)
  | obj (fields : List (String × JsonValue))

/-- Key lookup in a parsed JSON object. -/
def jsonLookup : List (String × JsonValue) → String → Option JsonValue
  | [], _ => none
  | (k, v) :: rest, key => if k = key then some v else jsonLookup rest key

/-- `WebSearchItem`: a single search query plus motivation.  The pydantic
fields carry only descriptions — no length validator on `query`. -/
structure WebSearchItem where
  query : String
  reason : String
deriving DecidableEq, Repr

/-- `WebSearchPlan`: the list wrapper.  `searches` is required (no default)
and carries no min/max-items validator. -/
structure WebSearchPlan where
  searches : List WebSearchItem
deriving DecidableEq, Repr

/-- `WebSearchItem(**data)` validation: the value must be an object with
string fields `query` and `reason` (both required, extra keys ignored,
no coercion of non-string values in pydantic v2 lax mode); anything else
raises a ValidationError. -/
def webSearchItemOfJson : JsonValue → Except String WebSearchItem
  | .obj fields =>
      match jsonLookup fields "query", jsonLookup fields "reason" with
      | some (.str q), some (.str r) => .ok { query := q, reason := r }
      | _, _ => .error "ValidationError: WebSearchItem fields"
  | _ => .error "ValidationError: WebSearchItem expects an object"

/-- Elementwise validation of the `searches` array. -/
def webSearchItemsOfJson : List JsonValue → Except String (List WebSearchItem)
  | [] => .ok []
  | j :: rest =>
      match webSearchItemOfJson j, webSearchItemsOfJson rest with
      | .ok item, .ok items => .ok (item :: items)
      | .error e, _ => .error e
      | _, .error e => .error e

/-- `WebSearchPlan(**data)` validation: requires a `searches` key holding a
list whose every element validates as a `WebSearchItem`.  No constraint on
the number of elements or on query lengths. -/
def webSearchPlanOfJson : JsonValue → Except String WebSearchPlan
  | .obj fields =>
      match jsonLookup fields "searches" with
      | some (.arr elems) =>
          match webSearchItemsOfJson elems with
          | .ok items => .ok { searches := items }
          | .error e => .error e
      | some _ => .error "ValidationError: searches must be a list"
      | none => .error "ValidationError: searches field required"
  | _ => .error "ValidationError: WebSearchPlan expects an object"

/-- `WebSearchPlan()` — the no-argument construction attempted by
`final_output_as` as its fallback.  `searches` is a required field with no
default, so pydantic raises a ValidationError. -/
def webSearchPlanNoArgs : Except String WebSearchPlan :=
  .error "ValidationError: searches field required"

/-- The Python value held in `AgentResult.final_output`: an already-built
plan, a dict (from `json.loads` in `Agent.run`), or a raw string together
with the outcome of `json.loads` on it (`none` when loading raises). -/
inductive PyValue where
  | plan (p : WebSearchPlan)
  | dict (j : JsonValue)
  | str (raw : String) (loaded : Option JsonValue)

/-- `AgentResult.final_output_as(WebSearchPlan)`:
an instance passes through; a dict goes through `WebSearchPlan(**data)`
(errors propagate); a string is `json.loads`-ed and validated inside a
`try`, and on any failure the fallback `WebSearchPlan()` runs — which
itself raises. -/
def AgentResult.finalOutputAsPlan : PyValue → Except String WebSearchPlan
  | .plan p => .ok p
  | .dict j => webSearchPlanOfJson j
  | .str _ loaded =>
      match loaded with
      | some j =>
          match webSearchPlanOfJson j with
          | .ok p => .ok p
          | .error _ => webSearchPlanNoArgs
      | none => webSearchPlanNoArgs

/-- The completion text obtained by `Agent.run` for the planner, abstracted
at the level of its JSON extraction: either the slice from the first `\x7b`
to the last `\x7d` loads as JSON value `j`, or there is no loadable slice
and the raw text (with the outcome of `json.loads` on the full text)
remains. -/
inductive ModelReply where
  | jsonObj (j : JsonValue)
  | plain (raw : String) (loaded : Option JsonValue)

/-- The tail of `Agent.run` for an agent with an `output_type` (the
planner): a loadable JSON slice is returned as a dict result, otherwise the
raw text is returned as a string result. -/
def Agent.runPlanner : ModelReply → PyValue
  | .jsonObj j => .dict j
  | .plain raw loaded => .str raw loaded

/-- The JSON value carried by an agent result, if any: the dict itself, or
what `json.loads` yields on a string result. -/
def responseJson : PyValue → Option JsonValue
  | .plan _ => none
  | .dict j => some j
  | .str _ loaded => loaded

/-! ## Multi-call runner

`runChats` folds `process_chat` over a list of `(message, instant)` calls
against one fixed session id, with an always-succeeding inference oracle,
collecting the responses.  (The error arm cannot be reached under `okApi`.) -/

def transcript (calls : List (String × Nat)) (results : List ChatResponse) :
    List Message :=
  ((calls.zip results).map fun p =>
    [ { role := Role.user, content := p.1.1, timestamp := p.1.2 },
      { role := Role.assistant, content := p.2.response, timestamp := p.1.2 } ]).flatten

def ChatService.runChats (api : APIRequest → APIResponse) (settings : Settings) :
    Store → String → List (String × Nat) → Store × List ChatResponse
  | db, _, [] => (db, [])
  | db, sid, (m, t) :: rest =>
      match ChatService.processChat (okApi api) settings db m (some sid)
          none none none none sid t with
      | .error _ => (db, [])
      | .ok (res, db2) =>
          let p := ChatService.runChats api settings db2 sid rest
          (p.1, res :: p.2)

/-! ## Store lemmas -/

theorem Store.findOne_updateOnePush_same (db : Store) (sid : String)
    (msgs : List Message) (now : Nat) :
    Store.findOne (Store.updateOnePush db sid msgs now) sid =
      some (match Store.findOne db sid with
        | some log => { log with messages := log.messages ++ msgs, updated_at := now }
        | none => { session_id := sid, messages := msgs,
                    created_at := now, updated_at := now }) := by
  induction db with
  | nil => simp [Store.updateOnePush, Store.findOne]
  | cons hd tl ih =>
      obtain ⟨k, log⟩ := hd
      by_cases hk : k = sid
      · subst hk
        simp [Store.updateOnePush, Store.findOne]
      · simp [Store.updateOnePush, Store.findOne, hk, ih]

theorem Store.findOne_updateOnePush_other (db : Store) (sid sid' : String)
    (msgs : List Message) (now : Nat) (h : sid' ≠ sid) :
    Store.findOne (Store.updateOnePush db sid msgs now) sid' =
      Store.findOne db sid' := by
  induction db with
  | nil => simp [Store.updateOnePush, Store.findOne, Ne.symm h]
  | cons hd tl ih =>
      obtain ⟨k, log⟩ := hd
      by_cases hk : k = sid
      · subst hk
        simp [Store.updateOnePush, Store.findOne, Ne.symm h]
      · simp [Store.updateOnePush, Store.findOne, hk, ih]

/-- `process_chat` under an always-succeeding oracle always returns `ok`,
with the response and store it computes. -/
theorem ChatService.processChat_okApi (api : APIRequest → APIResponse)
    (settings : Settings) (db : Store) (message : String)
    (sessionId : Option String) (context : Option (List OAIMessage))
    (systemPrompt : Option String) (temperature : Option Rat)
    (maxTokens : Option Nat) (freshId : String) (now : Nat) :
    ChatService.processChat (okApi api) settings db message sessionId context
        systemPrompt temperature maxTokens freshId now =
      (let sid : String := match sessionId with
        | some s => if s = "" then freshId else s
        | none => freshId
      let rd := api (OpenAIClient.buildRequest settings
        (ChatService.prepareMessages db message sid context systemPrompt)
        temperature maxTokens none)
      .ok ({ response := rd.content, session_id := sid, timestamp := now,
             usage := rd.usage },
           ChatService.saveChatLog db sid message rd.content now)) := rfl

/-- The messages stored for a session after a `_save_chat_log` are the
previously stored ones followed by the user message and the assistant
reply. -/
theorem ChatService.saveChatLog_historyMessages (db : Store)
    (sid um ar : String) (now : Nat) :
    historyMessages (ChatService.saveChatLog db sid um ar now) sid =
      historyMessages db sid ++
        [ { role := Role.user, content := um, timestamp := now },
          { role := Role.assistant, content := ar, timestamp := now } ] := by
  unfold historyMessages ChatService.getChatHistory ChatService.saveChatLog
  rw [Store.findOne_updateOnePush_same]
  cases Store.findOne db sid <;> simp

/-- `_save_chat_log` leaves every other session's lookup unchanged. -/
theorem ChatService.saveChatLog_findOne_other (db : Store)
    (sid sid' um ar : String) (now : Nat) (h : sid' ≠ sid) :
    Store.findOne (ChatService.saveChatLog db sid um ar now) sid' =
      Store.findOne db sid' := by
  unfold ChatService.saveChatLog
  exact Store.findOne_updateOnePush_other db sid sid' _ now h

/-! ## Claim theorems -/

/-- C1 counterexample: the claim fails when the caller supplies the empty
string as `system_prompt`.  `_prepare_messages` tests `if system_prompt:`,
which is false for `""`, so the supplied system prompt is not placed in the
conversation: with an empty store the conversation is just the user message,
not the claimed system message followed by the user message. -/
theorem C1_counterexample :
    ChatService.prepareMessages [] "hi" "s" none (some "") =
        [{ role := "user", content := "hi" }] ∧
      ChatService.prepareMessages [] "hi" "s" none (some "") ≠
        [{ role := "system", content := "" }, { role := "user", content := "hi" }] := by
  exact ⟨rfl, by decide⟩

/-- C1 (amended): for every chat request, the conversation passed to the
inference client is exactly, in order: the caller-supplied `system_prompt`
as a system-role message if a non-empty one was supplied (a supplied empty
string is treated as absent), then the most recent at-most-10 previously
stored messages for the session in oldest-first order with their original
roles, then the caller-supplied `context` pairs in the order given, then
the new user message with role user as the last element. -/
theorem C1_conversation_order (db : Store) (message sessionId : String)
    (context : Option (List OAIMessage)) (systemPrompt : Option String) :
    ChatService.prepareMessages db message sessionId context systemPrompt =
      (match systemPrompt with
        | some sp => if sp = "" then [] else [{ role := "system", content := sp }]
        | none => []) ++
      (match Store.findOne db sessionId with
        | some log =>
            ((log.messages.reverse.take 10).reverse).map
              (fun m => { role := m.role.toString, content := m.content })
        | none => []) ++
      context.getD [] ++
      [{ role := "user", content := message }] := by
  cases h : Store.findOne db sessionId with
  | none => simp [ChatService.prepareMessages, h]
  | some log =>
      have hr : (log.messages.reverse.take 10).reverse =
          log.messages.drop (log.messages.length - 10) := by
        rw [← List.rtake_eq_reverse_take_reverse]
        rfl
      simp [ChatService.prepareMessages, h, hr]

/-- C4: when the inference call fails, the chat endpoint performs no store
write (the returned store is the one it was given, unchanged) and surfaces
the failure as HTTP 500 with a generic detail string. -/
theorem C4_inference_failure_no_write (settings : Settings) (db : Store)
    (req : ChatRequest) (freshId : String) (now : Nat) (e : String)
    (api : APIRequest → Except String APIResponse)
    (hfail : ∀ r, api r = .error e) :
    chatEndpoint api settings db req freshId now =
      (.httpError 500 ("Error processing chat: " ++ e), db) := by
  simp [chatEndpoint, ChatService.processChat, OpenAIClient.generateResponse, hfail]

/-- Witness for C4 at a concrete failing oracle and request. -/
theorem C4_witness :
    chatEndpoint (fun _ => .error "boom") {} [] { message := "hi" } "s" 0 =
      (.httpError 500 ("Error processing chat: " ++ "boom"), []) :=
  C4_inference_failure_no_write {} [] { message := "hi" } "s" 0 "boom" _ (fun _ => rfl)

/-- C5 counterexample: temperature 0 is accepted by request validation
(0 ≤ 0 ≤ 2), but `generate_response` computes `temperature or default`, so
the request actually sent carries the process-wide default (7/10), not the
caller-supplied 0. -/
theorem C5_counterexample :
    ((0:Rat) ≤ 0 ∧ (0:Rat) ≤ 2) ∧
    (OpenAIClient.buildRequest {} [] (some 0) none none).temperature = 7/10 ∧
    (OpenAIClient.buildRequest {} [] (some 0) none none).temperature ≠ 0 := by
  refine ⟨⟨le_refl 0, by norm_num⟩, by norm_num [OpenAIClient.buildRequest], ?_⟩
  norm_num [OpenAIClient.buildRequest]

/-- C5 (amended): the parameters passed to the inference API equal the
caller-supplied values whenever the caller supplied a truthy value: a
supplied non-zero temperature and any supplied max_tokens accepted by
validation (which forces max_tokens ≥ 1) are used; a supplied temperature
of exactly 0 falls back to the process-wide default, as do omitted
values. -/
theorem C5_generation_params (settings : Settings) (messages : List OAIMessage)
    (temperature : Option Rat) (maxTokens : Option Nat) :
    (∀ api : APIRequest → Except String APIResponse,
        OpenAIClient.generateResponse api settings messages temperature maxTokens none =
          api (OpenAIClient.buildRequest settings messages temperature maxTokens none)) ∧
    (∀ t, temperature = some t → t ≠ 0 →
        (OpenAIClient.buildRequest settings messages temperature maxTokens none).temperature
          = t) ∧
    ((temperature = none ∨ temperature = some 0) →
        (OpenAIClient.buildRequest settings messages temperature maxTokens none).temperature
          = settings.temperature) ∧
    (∀ k, maxTokens = some k → 1 ≤ k →
        (OpenAIClient.buildRequest settings messages temperature maxTokens none).max_tokens
          = k) ∧
    (maxTokens = none →
        (OpenAIClient.buildRequest settings messages temperature maxTokens none).max_tokens
          = settings.max_tokens) := by
  refine ⟨fun api => rfl, ?_, ?_, ?_, ?_⟩
  · rintro t rfl ht
    simp [OpenAIClient.buildRequest, ht]
  · rintro (rfl | rfl) <;> simp [OpenAIClient.buildRequest]
  · rintro k rfl hk
    have hk0 : k ≠ 0 := by omega
    simp [OpenAIClient.buildRequest, hk0]
  · rintro rfl
    simp [OpenAIClient.buildRequest]

/-- Witness for C5 (amended) at concrete supplied values. -/
theorem C5_generation_params_witness :
    (OpenAIClient.buildRequest {} [] (some 1) (some 5) none).temperature = 1 ∧
    (OpenAIClient.buildRequest {} [] (some 1) (some 5) none).max_tokens = 5 ∧
    (OpenAIClient.buildRequest {} [] none none none).temperature =
      ({} : Settings).temperature :=
  ⟨(C5_generation_params {} [] (some 1) (some 5)).2.1 1 rfl (by norm_num),
   (C5_generation_params {} [] (some 1) (some 5)).2.2.2.1 5 rfl (by norm_num),
   (C5_generation_params {} [] none none).2.2.1 (Or.inl rfl)⟩

/-- C7: `_enhance_prompts` prepends the fixed default system message exactly
when the conversation is empty or begins with a non-system-role entry,
returns the conversation unchanged when it already begins with a
system-role entry, and the default system message is never written to the
conversation store: every message `_save_chat_log` adds has role user or
assistant, so any stored system-role message was stored before the call. -/
theorem C7_default_system_message :
    (∀ msgs : List OAIMessage,
        msgs = [] ∨ msgs.head?.map OAIMessage.role ≠ some "system" →
        OpenAIClient.enhancePrompts msgs = defaultSystemMessage :: msgs) ∧
    (∀ msgs : List OAIMessage,
        msgs.head?.map OAIMessage.role = some "system" →
        OpenAIClient.enhancePrompts msgs = msgs) ∧
    (∀ (db : Store) (sid um ar : String) (now : Nat) (m : Message),
        m ∈ historyMessages (ChatService.saveChatLog db sid um ar now) sid →
        m ∈ historyMessages db sid ∨ m.role ≠ Role.system) := by
  refine ⟨?_, ?_, ?_⟩
  · intro msgs h
    cases msgs with
    | nil => rfl
    | cons m rest =>
        rcases h with h | h
        · exact absurd h (by simp)
        · have hm : m.role ≠ "system" := by
            simpa using h
          simp [OpenAIClient.enhancePrompts, hm]
  · intro msgs h
    cases msgs with
    | nil => simp at h
    | cons m rest =>
        have hm : m.role = "system" := by
          simpa using h
        simp [OpenAIClient.enhancePrompts, hm]
  · intro db sid um ar now m hmem
    rw [ChatService.saveChatLog_historyMessages] at hmem
    rcases List.mem_append.mp hmem with h | h
    · exact Or.inl h
    · right
      simp only [List.mem_cons, List.not_mem_nil, or_false] at h
      rcases h with rfl | rfl <;> exact fun hc => Role.noConfusion hc

/-- Witness for C7 at concrete conversations and a concrete save. -/
theorem C7_witness :
    OpenAIClient.enhancePrompts [{ role := "user", content := "hi" }] =
        defaultSystemMessage :: [{ role := "user", content := "hi" }] ∧
    OpenAIClient.enhancePrompts [{ role := "system", content := "x" }] =
        [{ role := "system", content := "x" }] ∧
    (({ role := Role.user, content := "hi", timestamp := 0 } : Message) ∈
        historyMessages [] "s" ∨
      ({ role := Role.user, content := "hi", timestamp := 0 } : Message).role ≠ Role.system) :=
  ⟨C7_default_system_message.1 _ (Or.inr (by decide)),
   C7_default_system_message.2.1 _ (by decide),
   C7_default_system_message.2.2 [] "s" "hi" "ok" 0
     { role := Role.user, content := "hi", timestamp := 0 } (by decide)⟩

/-- Unfolding of the transcript on one call/response pair. -/
theorem transcript_cons (m : String) (t : Nat) (r : ChatResponse)
    (rest : List (String × Nat)) (rs : List ChatResponse) :
    transcript ((m, t) :: rest) (r :: rs) =
      { role := Role.user, content := m, timestamp := t } ::
      { role := Role.assistant, content := r.response, timestamp := t } ::
      transcript rest rs := by
  simp [transcript]

/-- The flattened transcript has two messages per call. -/
theorem transcript_length :
    ∀ (calls : List (String × Nat)) (results : List ChatResponse),
      results.length = calls.length →
      (transcript calls results).length = 2 * calls.length
  | [], _, _ => by simp [transcript]
  | (_, _) :: rest, [], h => by simp at h
  | (m, t) :: rest, r :: rs, h => by
      rw [transcript_cons]
      have h' : rs.length = rest.length := by simpa using h
      have := transcript_length rest rs h'
      simp only [List.length_cons]
      omega

/-- Invariant of the multi-call runner: the stored messages for the session
grow by exactly the per-call user/assistant pairs, in call order, and one
response is collected per call. -/
theorem ChatService.runChats_spec (api : APIRequest → APIResponse)
    (settings : Settings) (sid : String) :
    ∀ (calls : List (String × Nat)) (db : Store),
      historyMessages (ChatService.runChats api settings db sid calls).1 sid =
          historyMessages db sid ++
            transcript calls (ChatService.runChats api settings db sid calls).2 ∧
        (ChatService.runChats api settings db sid calls).2.length = calls.length := by
  intro calls
  induction calls with
  | nil => intro db; simp [ChatService.runChats, transcript]
  | cons c rest ih =>
      intro db
      obtain ⟨m, t⟩ := c
      rw [ChatService.runChats, ChatService.processChat_okApi]
      simp only [ite_self]
      constructor
      · rw [(ih _).1, ChatService.saveChatLog_historyMessages, transcript_cons]
        simp [List.append_assoc]
      · simpa using (ih _).2

/-- C2: a sequence of N successful chat calls against one session id, each
call appending the user message then the assistant reply: starting from a
store with no log for the session, after the Nth call the stored message
count is 2N, and reading the history back yields exactly the appended
messages — original roles, contents and timestamps, in append order, with
no reordering and no loss. -/
theorem C2_two_messages_per_call (api : APIRequest → APIResponse)
    (settings : Settings) (sid : String) (_hs : sid ≠ "") (db0 : Store)
    (h0 : Store.findOne db0 sid = none) (calls : List (String × Nat)) :
    historyMessages (ChatService.runChats api settings db0 sid calls).1 sid =
        transcript calls (ChatService.runChats api settings db0 sid calls).2 ∧
      (historyMessages (ChatService.runChats api settings db0 sid calls).1 sid).length =
        2 * calls.length := by
  have hspec := ChatService.runChats_spec api settings sid calls db0
  have h0' : historyMessages db0 sid = [] := by
    unfold historyMessages ChatService.getChatHistory
    rw [h0]
  refine ⟨by rw [hspec.1, h0']; simp, ?_⟩
  rw [hspec.1, h0', List.nil_append]
  exact transcript_length calls _ hspec.2

/-- Witness for C2: two concrete calls against a fresh session. -/
theorem C2_witness :
    historyMessages
        (ChatService.runChats (fun _ => { content := "ok", usage := ⟨1, 1, 2⟩ }) {}
          [] "s" [("hi", 3), ("again", 5)]).1 "s" =
        transcript [("hi", 3), ("again", 5)]
          (ChatService.runChats (fun _ => { content := "ok", usage := ⟨1, 1, 2⟩ }) {}
            [] "s" [("hi", 3), ("again", 5)]).2 ∧
      (historyMessages
        (ChatService.runChats (fun _ => { content := "ok", usage := ⟨1, 1, 2⟩ }) {}
          [] "s" [("hi", 3), ("again", 5)]).1 "s").length = 2 * 2 :=
  C2_two_messages_per_call (fun _ => { content := "ok", usage := ⟨1, 1, 2⟩ }) {}
    "s" (by decide) [] rfl [("hi", 3), ("again", 5)]

/-- C3: with no session id supplied, `process_chat` uses the freshly
generated identifier (modeled by `freshId`, assumed unused in the store,
as `uuid4` guarantees) for the store append and echoes it in the response,
creating a log holding exactly the user message then the assistant reply;
with a (non-empty) session id supplied, the response echoes that id. -/
theorem C3_fresh_session_id (api : APIRequest → APIResponse) (settings : Settings)
    (db : Store) (message : String) (context : Option (List OAIMessage))
    (systemPrompt : Option String) (temperature : Option Rat)
    (maxTokens : Option Nat) (freshId : String) (now : Nat)
    (hfresh : Store.findOne db freshId = none) :
    (∃ res db2,
        ChatService.processChat (okApi api) settings db message none context
            systemPrompt temperature maxTokens freshId now = .ok (res, db2) ∧
          res.session_id = freshId ∧
          ∃ log, Store.findOne db2 freshId = some log ∧
            log.messages =
              [ { role := Role.user, content := message, timestamp := now },
                { role := Role.assistant, content := res.response, timestamp := now } ]) ∧
    (∀ s, s ≠ "" →
        ∃ res db2,
          ChatService.processChat (okApi api) settings db message (some s) context
              systemPrompt temperature maxTokens freshId now = .ok (res, db2) ∧
            res.session_id = s) := by
  constructor
  · rw [ChatService.processChat_okApi]
    refine ⟨_, _, rfl, rfl, ?_⟩
    unfold ChatService.saveChatLog
    rw [Store.findOne_updateOnePush_same, hfresh]
    exact ⟨_, rfl, rfl⟩
  · intro s hne
    rw [ChatService.processChat_okApi]
    refine ⟨_, _, rfl, ?_⟩
    simp [hne]

/-- Witness for C3 at a concrete empty store and oracle. -/
theorem C3_witness :
    (∃ res db2,
        ChatService.processChat (okApi (fun _ => { content := "ok", usage := ⟨1, 1, 2⟩ }))
            {} [] "hello" none none none none none "u1" 7 = .ok (res, db2) ∧
          res.session_id = "u1" ∧
          ∃ log, Store.findOne db2 "u1" = some log ∧
            log.messages =
              [ { role := Role.user, content := "hello", timestamp := 7 },
                { role := Role.assistant, content := res.response, timestamp := 7 } ]) ∧
    (∀ s, s ≠ "" →
        ∃ res db2,
          ChatService.processChat (okApi (fun _ => { content := "ok", usage := ⟨1, 1, 2⟩ }))
              {} [] "hello" (some s) none none none none "u1" 7 = .ok (res, db2) ∧
            res.session_id = s) :=
  C3_fresh_session_id (fun _ => { content := "ok", usage := ⟨1, 1, 2⟩ }) {} [] "hello"
    none none none none "u1" 7 rfl

/-- Inversion on the result match of `process_chat`, for an already
resolved session id. -/
theorem ChatService.processChat_ok_store_aux (x : Except String APIResponse)
    (db : Store) (sid message : String) (now : Nat)
    (res : ChatResponse) (db2 : Store)
    (h : (match x with
      | .error e => (.error e : Except String (ChatResponse × Store))
      | .ok rd =>
          .ok ({ response := rd.content, session_id := sid, timestamp := now,
                 usage := rd.usage },
               ChatService.saveChatLog db sid message rd.content now)) =
        .ok (res, db2)) :
    db2 = ChatService.saveChatLog db res.session_id message res.response now := by
  cases x with
  | error e => simp at h
  | ok rd =>
      simp only [Except.ok.injEq, Prod.mk.injEq] at h
      obtain ⟨h1, h2⟩ := h
      subst h2
      rw [← h1]

/-- Inversion for a successful `process_chat`: the produced store is exactly
the upsert-append under the echoed session id. -/
theorem ChatService.processChat_ok_store (api : APIRequest → Except String APIResponse)
    (settings : Settings) (db : Store) (message : String)
    (sessionId : Option String) (context : Option (List OAIMessage))
    (systemPrompt : Option String) (temperature : Option Rat)
    (maxTokens : Option Nat) (freshId : String) (now : Nat)
    (res : ChatResponse) (db2 : Store)
    (h : ChatService.processChat api settings db message sessionId context
        systemPrompt temperature maxTokens freshId now = .ok (res, db2)) :
    db2 = ChatService.saveChatLog db res.session_id message res.response now := by
  unfold ChatService.processChat OpenAIClient.generateResponse at h
  cases sessionId with
  | none => exact ChatService.processChat_ok_store_aux _ _ _ _ _ _ _ h
  | some s => exact ChatService.processChat_ok_store_aux _ _ _ _ _ _ _ h

/-- C6: for a session id on which no chat call ever succeeded, history
lookup is a distinct not-found result (HTTP 404), never an empty log;
conversely, after any successful chat call a history lookup for the used
session id returns the log (and it keeps doing so across later successful
calls, since a successful call never removes a session). -/
theorem C6_history_404_vs_found :
    (∀ (db : Store) (sid : String), Store.findOne db sid = none →
        getHistoryEndpoint db sid = .httpError 404 "Chat history not found") ∧
    (∀ (api : APIRequest → Except String APIResponse) (settings : Settings)
        (db : Store) (message : String) (sessionId : Option String)
        (context : Option (List OAIMessage)) (systemPrompt : Option String)
        (temperature : Option Rat) (maxTokens : Option Nat) (freshId : String)
        (now : Nat) (res : ChatResponse) (db2 : Store),
        ChatService.processChat api settings db message sessionId context
            systemPrompt temperature maxTokens freshId now = .ok (res, db2) →
        ∃ log, getHistoryEndpoint db2 res.session_id = .ok log) ∧
    (∀ (api : APIRequest → Except String APIResponse) (settings : Settings)
        (db : Store) (message : String) (sessionId : Option String)
        (context : Option (List OAIMessage)) (systemPrompt : Option String)
        (temperature : Option Rat) (maxTokens : Option Nat) (freshId : String)
        (now : Nat) (res : ChatResponse) (db2 : Store) (sid : String) (log : ChatLog),
        Store.findOne db sid = some log →
        ChatService.processChat api settings db message sessionId context
            systemPrompt temperature maxTokens freshId now = .ok (res, db2) →
        ∃ log2, getHistoryEndpoint db2 sid = .ok log2) := by
  refine ⟨?_, ?_, ?_⟩
  · intro db sid h
    simp [getHistoryEndpoint, ChatService.getChatHistory, h]
  · intro api settings db message sessionId context systemPrompt temperature
      maxTokens freshId now res db2 h
    rw [ChatService.processChat_ok_store api settings db message sessionId context
      systemPrompt temperature maxTokens freshId now res db2 h]
    unfold ChatService.saveChatLog
    rw [getHistoryEndpoint, ChatService.getChatHistory,
      Store.findOne_updateOnePush_same]
    exact ⟨_, rfl⟩
  · intro api settings db message sessionId context systemPrompt temperature
      maxTokens freshId now res db2 sid log hlog h
    rw [ChatService.processChat_ok_store api settings db message sessionId context
      systemPrompt temperature maxTokens freshId now res db2 h]
    by_cases hsid : sid = res.session_id
    · subst hsid
      unfold ChatService.saveChatLog
      rw [getHistoryEndpoint, ChatService.getChatHistory,
        Store.findOne_updateOnePush_same]
      exact ⟨_, rfl⟩
    · rw [getHistoryEndpoint, ChatService.getChatHistory,
        ChatService.saveChatLog_findOne_other db res.session_id sid message
          res.response now hsid, hlog]
      exact ⟨_, rfl⟩

/-- Witness for C6: a miss on the empty store gives 404; a concrete
successful call makes the used session id findable, also from a store that
already held it. -/
theorem C6_witness :
    getHistoryEndpoint [] "s" = .httpError 404 "Chat history not found" ∧
    (∃ log, getHistoryEndpoint (ChatService.saveChatLog [] "s" "hello" "ok" 7) "s" =
        .ok log) :=
  ⟨C6_history_404_vs_found.1 [] "s" rfl,
   C6_history_404_vs_found.2.1
     (okApi (fun _ => { content := "ok", usage := ⟨1, 1, 2⟩ })) {} [] "hello"
     (some "s") none none none none "u1" 7
     { response := "ok", session_id := "s", timestamp := 7, usage := ⟨1, 1, 2⟩ }
     (ChatService.saveChatLog [] "s" "hello" "ok" 7) rfl⟩

/-- C10: a supplied empty-string `session_id` is treated exactly as an
absent one — the call is indistinguishable from the no-session-id call, the
fresh identifier is echoed and is the append key, and the empty string is
never used as a store key (its lookup is untouched). -/
theorem C10_empty_string_session (api : APIRequest → APIResponse)
    (settings : Settings) (db : Store) (message : String)
    (context : Option (List OAIMessage)) (systemPrompt : Option String)
    (temperature : Option Rat) (maxTokens : Option Nat) (freshId : String)
    (now : Nat) (hf : freshId ≠ "") :
    ChatService.processChat (okApi api) settings db message (some "") context
        systemPrompt temperature maxTokens freshId now =
      ChatService.processChat (okApi api) settings db message none context
        systemPrompt temperature maxTokens freshId now ∧
    (∃ res db2,
        ChatService.processChat (okApi api) settings db message (some "") context
            systemPrompt temperature maxTokens freshId now = .ok (res, db2) ∧
          res.session_id = freshId ∧
          historyMessages db2 freshId =
            historyMessages db freshId ++
              [ { role := Role.user, content := message, timestamp := now },
                { role := Role.assistant, content := res.response, timestamp := now } ] ∧
          Store.findOne db2 "" = Store.findOne db "") := by
  constructor
  · rfl
  · rw [ChatService.processChat_okApi]
    refine ⟨_, _, rfl, rfl, ?_, ?_⟩
    · simp only [ite_self]
      exact ChatService.saveChatLog_historyMessages db freshId message _ now
    · simp only [ite_self]
      exact ChatService.saveChatLog_findOne_other db freshId "" message _ now
        (Ne.symm hf)

/-- Witness for C10 at a concrete store and fresh id. -/
theorem C10_witness :
    ChatService.processChat (okApi (fun _ => { content := "ok", usage := ⟨1, 1, 2⟩ }))
        {} [] "hello" (some "") none none none none "u1" 7 =
      ChatService.processChat (okApi (fun _ => { content := "ok", usage := ⟨1, 1, 2⟩ }))
        {} [] "hello" none none none none none "u1" 7 ∧
    (∃ res db2,
        ChatService.processChat (okApi (fun _ => { content := "ok", usage := ⟨1, 1, 2⟩ }))
            {} [] "hello" (some "") none none none none "u1" 7 = .ok (res, db2) ∧
          res.session_id = "u1" ∧
          historyMessages db2 "u1" =
            historyMessages [] "u1" ++
              [ { role := Role.user, content := "hello", timestamp := 7 },
                { role := Role.assistant, content := res.response, timestamp := 7 } ] ∧
          Store.findOne db2 "" = Store.findOne [] "") :=
  C10_empty_string_session (fun _ => { content := "ok", usage := ⟨1, 1, 2⟩ }) {} []
    "hello" none none none none "u1" 7 (by decide)

/-- C8 counterexample: an inference response whose JSON is
`\x7b"searches": []\x7d` passes the planner's schema validation and yields a
plan with 0 entries, violating the claimed lower bound of 3 — the 3–6 entry
count (and the 100-character query limit) are requested in the prompt but
enforced nowhere. -/
theorem C8_counterexample :
    AgentResult.finalOutputAsPlan
        (Agent.runPlanner (.jsonObj (.obj [("searches", .arr [])]))) =
      .ok { searches := [] } ∧
    ¬ 3 ≤ ({ searches := [] } : WebSearchPlan).searches.length := by
  exact ⟨rfl, by simp⟩

/-- C8 (amended): the planner's output plan contains whatever entries the
inference response supplied — schema validation requires each entry to be
an object with string `query` and `reason` fields, but enforces neither the
3–6 entry count nor the ≤100-character query length (both appear only in
the instruction prompt): every well-typed `searches` array of any length,
with queries of any length, is accepted verbatim. -/
theorem C8_bounds_not_enforced (items : List (String × String)) :
    webSearchPlanOfJson
        (.obj [("searches",
          .arr (items.map fun it => .obj [("query", .str it.1), ("reason", .str it.2)]))]) =
      .ok { searches := items.map fun it => { query := it.1, reason := it.2 } } := by
  have h : ∀ l : List (String × String),
      webSearchItemsOfJson
          (l.map fun it => .obj [("query", .str it.1), ("reason", .str it.2)]) =
        .ok (l.map fun it => { query := it.1, reason := it.2 }) := by
    intro l
    induction l with
    | nil => rfl
    | cons hd tl ih =>
        simp [webSearchItemsOfJson, webSearchItemOfJson, jsonLookup, ih]
  simp [webSearchPlanOfJson, jsonLookup, h]

/-- C9: for every inference reply obtained by the planner, the final output
is either a plan that strictly parsed from the reply's JSON against the
`WebSearchPlan` schema, or an error — a reply that fails to parse to the
required shape always surfaces an error (the fallback `WebSearchPlan()`
itself raises, since `searches` is required), never a silently substituted
empty or default plan. -/
theorem C9_parse_failure_surfaced (reply : ModelReply) :
    (∃ p, AgentResult.finalOutputAsPlan (Agent.runPlanner reply) = .ok p ∧
        ∃ j, responseJson (Agent.runPlanner reply) = some j ∧
          webSearchPlanOfJson j = .ok p) ∨
    (∃ e, AgentResult.finalOutputAsPlan (Agent.runPlanner reply) = .error e) := by
  cases reply with
  | jsonObj j =>
      cases hp : webSearchPlanOfJson j with
      | ok p => exact Or.inl ⟨p, hp, j, rfl, hp⟩
      | error e => exact Or.inr ⟨e, hp⟩
  | plain raw loaded =>
      cases loaded with
      | none => exact Or.inr ⟨_, rfl⟩
      | some j =>
          cases hp : webSearchPlanOfJson j with
          | ok p =>
              refine Or.inl ⟨p, ?_, j, rfl, hp⟩
              simp [Agent.runPlanner, AgentResult.finalOutputAsPlan, hp]
          | error e =>
              refine Or.inr ⟨"ValidationError: searches field required", ?_⟩
              simp [Agent.runPlanner, AgentResult.finalOutputAsPlan, hp,
                webSearchPlanNoArgs]

end GenAI
